import Mathlib

/-!
# Verification of the load-test statistics engine

Shallow embedding of the concurrent load-generation and statistics
aggregation logic that recurs across `performance_test_suite.py`,
`simple_performance_test.py`, `load_test_100_users.py`,
`database_performance_test.py` and `cache_performance_test.py`.

Latencies are modelled as exact rationals (`ℚ`); the network is modelled
by an `HttpOutcome` value handed to each sampler (either a completed
response with status, body and elapsed time, or a raised exception with
the elapsed time at the moment it was caught).  Fields of the Python
records that no aggregation reads (wall-clock timestamps, memory and CPU
deltas) are omitted.
-/

namespace HEPerf

/-- Outcome of one HTTP call as seen by the `try`/`except` block around it:
either a completed response (status, body, elapsed milliseconds) or an
exception caught with the given message, `elapsedMs` being the wall-clock
time from `start_time` to the `except` handler. -/
inductive HttpOutcome where
  | ok (status : Nat) (content : String) (elapsedMs : ℚ)
  | exn (err : String) (elapsedMs : ℚ)
deriving Repr, DecidableEq

/-- The dict returned by `SimplePerformanceTester.test_endpoint`
(`simple_performance_test.py` lines 35-68). -/
structure SampleResult where
  response_time_ms : ℚ
  status_code : Nat
  response_size : Nat
  success : Bool
  error : Option String
deriving Repr, DecidableEq

/-- `SimplePerformanceTester.test_endpoint`: on a completed response the
elapsed time, the status and `success = 200 <= status < 300`; on an
exception the elapsed time, status 0, `success = False` and the message. -/
def test_endpoint (o : HttpOutcome) : SampleResult :=
  match o with
  | .ok s c t =>
      { response_time_ms := t
        status_code := s
        response_size := c.length
        success := decide (200 ≤ s ∧ s < 300)
        error := none }
  | .exn e t =>
      { response_time_ms := t
        status_code := 0
        response_size := 0
        success := false
        error := some e }

/-- The fields of `PerformanceMetrics` (`performance_test_suite.py`
lines 55-64) that the aggregation reads. -/
structure PerformanceMetrics where
  response_time_ms : ℚ
  status_code : Nat
  response_size_bytes : Nat
deriving Repr, DecidableEq

/-- `PerformanceTester.measure_endpoint_performance`
(`performance_test_suite.py` lines 185-235): on a completed response the
elapsed time, status and body size; on an exception the sentinel record
`(9999.0, 0, 0)`. -/
def measure_endpoint_performance (o : HttpOutcome) : PerformanceMetrics :=
  match o with
  | .ok s c t =>
      { response_time_ms := t, status_code := s, response_size_bytes := c.length }
  | .exn _ _ =>
      { response_time_ms := 9999, status_code := 0, response_size_bytes := 0 }

/-- The value appended to `cold_times` / `warm_times` per request by
`CachePerformanceTester.test_cache_performance_improvement`
(`cache_performance_test.py` lines 109-134): the elapsed time on a
completed response, the sentinel `9999.0` on an exception. -/
def cache_request_time (o : HttpOutcome) : ℚ :=
  match o with
  | .ok _ _ t => t
  | .exn _ _ => 9999

/-- The value appended to `response_times` per request by
`PerformanceTester.simulate_concurrent_user`
(`performance_test_suite.py` lines 292-317): the elapsed time on a
completed response, the sentinel `9999.0` on an exception. -/
def simulate_request_time (o : HttpOutcome) : ℚ :=
  match o with
  | .ok _ _ t => t
  | .exn _ _ => 9999

/-- `PerformanceTester.simulate_concurrent_user`'s returned
`response_times` list: one entry per request cycle. -/
def simulate_concurrent_user (outcomes : List HttpOutcome) : List ℚ :=
  outcomes.map simulate_request_time

/-- The accumulating `self.results` fields of `LoadTester`
(`load_test_100_users.py` lines 20-28) that `simulate_user` and
`print_results` read. -/
structure LoadResults where
  requests : Nat
  successes : Nat
  failures : Nat
  response_times : List ℚ
  errors : List String
deriving Repr, DecidableEq

/-- One iteration of the request loop in `LoadTester.simulate_user`
(`load_test_100_users.py` lines 88-125): on a completed response the
elapsed time is appended to `response_times` and the request counts as a
success iff `status < 400`; on an exception no time is recorded, the
failure count rises and the message is appended to `errors`. -/
def simulate_user_step (r : LoadResults) (o : HttpOutcome) : LoadResults :=
  match o with
  | .ok s _ t =>
      { r with
        requests := r.requests + 1
        response_times := r.response_times ++ [t]
        successes := if s < 400 then r.successes + 1 else r.successes
        failures := if s < 400 then r.failures else r.failures + 1 }
  | .exn e _ =>
      { r with
        requests := r.requests + 1
        failures := r.failures + 1
        errors := r.errors ++ [e] }

/-- The nearest-rank index `int(p * len(sorted_times))` used by every
percentile computation in the repository (`int` truncates toward zero,
which on the non-negative products used here is the floor). -/
def percentile_index (p : ℚ) (n : Nat) : ℕ :=
  (⌊p * (n : ℚ)⌋).toNat

/-- The percentile computation shared by
`simple_performance_test.py` line 144, `performance_test_suite.py`
lines 376-380, `load_test_100_users.py` lines 188-190 and
`database_performance_test.py` lines 183-187: sort ascending, index at
`int(p * N)`, and yield 0 for the empty list. -/
def percentile (p : ℚ) (times : List ℚ) : ℚ :=
  if (times.insertionSort (· ≤ ·)).isEmpty then 0
  else (times.insertionSort (· ≤ ·)).getD
    (percentile_index p (times.insertionSort (· ≤ ·)).length) 0

/-- The success-only sorted latency list of
`PerformanceTester.test_concurrent_users` (`performance_test_suite.py`
line 376): `sorted([rt for rt in all_response_times if rt < 9999.0])`. -/
def suite_sorted_times (all_response_times : List ℚ) : List ℚ :=
  (all_response_times.filter (fun rt => decide (rt < 9999))).insertionSort (· ≤ ·)

/-- `p95_response_time` of `PerformanceTester.test_concurrent_users`
(`performance_test_suite.py` lines 376-380). -/
def suite_p95_response_time (all_response_times : List ℚ) : ℚ :=
  percentile (95 / 100) (all_response_times.filter (fun rt => decide (rt < 9999)))

/-- `p95_query_time` of `DatabasePerformanceTester.test_concurrent_queries`
(`database_performance_test.py` lines 183-187): the 95th percentile over
`all_query_times` with no success filter. -/
def db_p95_query_time (all_query_times : List ℚ) : ℚ :=
  percentile (95 / 100) all_query_times

/-- `successful_queries` of the same function
(`database_performance_test.py` line 180): query times below the 9999
sentinel count as successful. -/
def db_successful_queries (all_query_times : List ℚ) : Nat :=
  (all_query_times.filter (fun t => decide (t < 9999))).length

/-- The running success/failure counters of
`PerformanceTester.test_concurrent_users` (`performance_test_suite.py`
lines 355-367). -/
structure ConcCounts where
  successful_requests : Nat
  failed_requests : Nat
deriving Repr, DecidableEq

/-- Classification of one recorded response time
(`performance_test_suite.py` lines 362-367): below the 9999 sentinel it
counts as successful, otherwise as failed. -/
def count_rt (a : ConcCounts) (rt : ℚ) : ConcCounts :=
  if rt < 9999 then { a with successful_requests := a.successful_requests + 1 }
  else { a with failed_requests := a.failed_requests + 1 }

/-- Counting one virtual user's returned response-time list. -/
def count_user_result (acc : ConcCounts) (rts : List ℚ) : ConcCounts :=
  rts.foldl count_rt acc

/-- Processing one entry of the `asyncio.gather(..., return_exceptions=True)`
result list (`performance_test_suite.py` lines 358-367): an exception adds
`requests_per_user` failures, a response-time list is counted per entry. -/
def orchestrate_step (requests_per_user : Nat) (acc : ConcCounts)
    (r : Except String (List ℚ)) : ConcCounts :=
  match r with
  | .error _ => { acc with failed_requests := acc.failed_requests + requests_per_user }
  | .ok rts => count_user_result acc rts

/-- The whole result-processing loop of
`PerformanceTester.test_concurrent_users`. -/
def process_user_results (requests_per_user : Nat)
    (results : List (Except String (List ℚ))) : ConcCounts :=
  results.foldl (orchestrate_step requests_per_user)
    { successful_requests := 0, failed_requests := 0 }

/-- `error_rate_percent` of `PerformanceTester.test_concurrent_users`
(`performance_test_suite.py` line 385):
`(failed_requests / total_requests) * 100 if total_requests > 0 else 0`. -/
def error_rate_percent (failed total : Nat) : ℚ :=
  if 0 < total then ((failed : ℚ) / (total : ℚ)) * 100 else 0

/-- `throughput_rps` of `PerformanceTester.test_concurrent_users`
(`performance_test_suite.py` line 384) and `requests_per_second` of
`SimplePerformanceTester.test_concurrent_load`
(`simple_performance_test.py` line 140):
`successful / duration if duration > 0 else 0`. -/
def throughput_rps (successful : Nat) (duration : ℚ) : ℚ :=
  if 0 < duration then (successful : ℚ) / duration else 0

/-- The `content_hash` values of the successful responses, as collected by
`CachePerformanceTester.test_response_consistency`
(`cache_performance_test.py` line 82): a `none` entry is a request that
failed (its dict has no `content_hash` key). -/
def successful_hashes (responses : List (Option String)) : List String :=
  responses.filterMap id

/-- `content_consistent` of `CachePerformanceTester.test_response_consistency`
(`cache_performance_test.py` lines 83-90): the number of distinct hashes
(`len(set(content_hashes))`) is at most 1. -/
def content_consistent (content_hashes : List String) : Bool :=
  decide (content_hashes.dedup.length ≤ 1)

/-- The consistency flag as computed from the raw responses. -/
def content_consistent_of (responses : List (Option String)) : Bool :=
  content_consistent (successful_hashes responses)

/-- `performance_improvement` of
`CachePerformanceTester.test_cache_performance_improvement`
(`cache_performance_test.py` line 139):
`((cold_avg - warm_avg) / cold_avg * 100) if cold_avg > 0 else 0`. -/
def performance_improvement (cold_avg warm_avg : ℚ) : ℚ :=
  if 0 < cold_avg then (cold_avg - warm_avg) / cold_avg * 100 else 0

/-- `cache_likely_present` (`cache_performance_test.py` line 146):
the improvement exceeds the 10% threshold. -/
def cache_likely_present (cold_avg warm_avg : ℚ) : Bool :=
  decide (10 < performance_improvement cold_avg warm_avg)

/-- The contribution of the cold/warm performance test to `evidence_score`
in `CachePerformanceTester.analyze_cache_results`
(`cache_performance_test.py` lines 282-290): 4 points when
`cache_likely_present`, 2 bonus points when the improvement exceeds 20%. -/
def performance_evidence_score (cold_avg warm_avg : ℚ) : Nat :=
  (if cache_likely_present cold_avg warm_avg then 4 else 0) +
  (if 20 < performance_improvement cold_avg warm_avg then 2 else 0)

/-- The priorities used by the recommendation rules. -/
inductive Priority where
  | LOW
  | MEDIUM
  | HIGH
  | CRITICAL
deriving Repr, DecidableEq

/-- One emitted finding: its category string and priority (the issue and
advice strings carry no further structure and are omitted). -/
structure Recommendation where
  category : String
  priority : Priority
deriving Repr, DecidableEq

/-- The recommendations `PerformanceTester.generate_performance_report`
derives from the maximum-user-count concurrency result
(`performance_test_suite.py` lines 643-659): HIGH "Scalability" when the
error rate exceeds 5%, MEDIUM "Throughput" when throughput is below
50 RPS. -/
def concurrency_recommendations (error_rate throughput : ℚ) : List Recommendation :=
  (if 5 < error_rate then [{ category := "Scalability", priority := Priority.HIGH }] else []) ++
  (if throughput < 50 then [{ category := "Throughput", priority := Priority.MEDIUM }] else [])

/-- The recommendations `SimplePerformanceTester.analyze_results` derives
from a concurrent-load summary (`simple_performance_test.py`
lines 240-255): MEDIUM "Throughput" below 10 RPS, HIGH "Reliability" when
any request failed. -/
def load_recommendations (requests_per_second : ℚ) (failed_requests : Nat) :
    List Recommendation :=
  (if requests_per_second < 10 then [{ category := "Throughput", priority := Priority.MEDIUM }] else []) ++
  (if 0 < failed_requests then [{ category := "Reliability", priority := Priority.HIGH }] else [])

/-- The helper bound behind every nearest-rank lookup: for `p < 1`
and a non-empty list, `int(p * N)` stays strictly below `N`. -/
theorem percentile_index_lt (p : ℚ) (n : Nat) (h1 : p < 1)
    (hn : 0 < n) : percentile_index p n < n := by
  have hnq : (0 : ℚ) < (n : ℚ) := by exact_mod_cast hn
  have hlt : p * (n : ℚ) < (n : ℚ) := by
    calc p * (n : ℚ) < 1 * (n : ℚ) := by
          exact mul_lt_mul_of_pos_right h1 hnq
      _ = (n : ℚ) := one_mul _
  have hfloor : ⌊p * (n : ℚ)⌋ < (n : ℤ) := by
    rw [Int.floor_lt]
    exact_mod_cast hlt
  have hne : n ≠ 0 := Nat.pos_iff_ne_zero.mp hn
  exact (Int.toNat_lt' hne).mpr hfloor

/-- `percentile` of the empty list is the guarded 0. -/
theorem percentile_nil (p : ℚ) : percentile p [] = 0 := rfl

/-- C1: for every non-empty ascending-sorted successful-latency list of
length N, the p-th percentile computed by the aggregation code equals the
element at index `floor(p * N)` of that list; for the empty list the
percentile is 0. -/
theorem C1_percentile_nearest_rank (p : ℚ) (l : List ℚ)
    (h0 : 0 ≤ p) (h1 : p < 1) (hs : List.Sorted (· ≤ ·) l) (hne : l ≠ []) :
    percentile p [] = 0 ∧
    percentile_index p l.length < l.length ∧
    percentile p l = l.getD (percentile_index p l.length) 0 := by
  have hn : 0 < l.length := List.length_pos.mpr hne
  refine ⟨percentile_nil p, percentile_index_lt p l.length h1 hn, ?_⟩
  unfold percentile
  rw [hs.insertionSort_eq, if_neg]
  simp [List.isEmpty_iff, hne]

/-- Witness for C1 at `p = 95/100` and the sorted list `[1, 2, 3]`. -/
theorem C1_percentile_nearest_rank_witness :
    percentile (95 / 100) [] = 0 ∧
    percentile_index (95 / 100) ([(1 : ℚ), 2, 3]).length < ([(1 : ℚ), 2, 3]).length ∧
    percentile (95 / 100) [(1 : ℚ), 2, 3]
      = ([(1 : ℚ), 2, 3]).getD (percentile_index (95 / 100) ([(1 : ℚ), 2, 3]).length) 0 :=
  C1_percentile_nearest_rank (95 / 100) [(1 : ℚ), 2, 3]
    (by norm_num) (by norm_num)
    (by norm_num [List.sorted_cons]) (by simp)

/-- C10: the nearest-rank index `int(p * N)` used for p95 and p99 stays
within `0 ≤ index ≤ N - 1` for every non-empty list, so the lookup on the
sorted list is in bounds, and the empty-list case yields the guarded 0. -/
theorem C10_percentile_index_safe (p : ℚ) (n : Nat)
    (h0 : 0 ≤ p) (h1 : p < 1) (hn : 1 ≤ n) :
    percentile_index p n ≤ n - 1 ∧ percentile p [] = 0 := by
  refine ⟨?_, percentile_nil p⟩
  have := percentile_index_lt p n h1 (by omega)
  omega

/-- Witness for C10 at `p = 99/100` and `N = 7`. -/
theorem C10_percentile_index_safe_witness :
    percentile_index (99 / 100) 7 ≤ 7 - 1 ∧ percentile (99 / 100) [] = 0 :=
  C10_percentile_index_safe (99 / 100) 7 (by norm_num) (by norm_num) (by norm_num)

/-- C2 fails as stated: on an exception,
`SimplePerformanceTester.test_endpoint` records the actually elapsed time
(here 1234 ms), not the fixed 9999 ms sentinel. -/
theorem C2_sentinel_latency_counterexample :
    (test_endpoint (HttpOutcome.exn "Connection refused" 1234)).success = false ∧
    (test_endpoint (HttpOutcome.exn "Connection refused" 1234)).response_time_ms = 1234 ∧
    (test_endpoint (HttpOutcome.exn "Connection refused" 1234)).response_time_ms ≠ 9999 := by
  refine ⟨rfl, rfl, ?_⟩
  show (1234 : ℚ) ≠ 9999
  norm_num

/-- C2 amended: no sampler propagates the failure — each returns a failed
record — and `measure_endpoint_performance`, the cache tester's request
loops and `simulate_concurrent_user` record the sentinel 9999 ms, but
`test_endpoint` records the actually elapsed time with `success = false`
and status 0. -/
theorem C2_sampler_failure_capture (e : String) (t : ℚ) :
    (measure_endpoint_performance (HttpOutcome.exn e t)).response_time_ms = 9999 ∧
    (measure_endpoint_performance (HttpOutcome.exn e t)).status_code = 0 ∧
    cache_request_time (HttpOutcome.exn e t) = 9999 ∧
    simulate_request_time (HttpOutcome.exn e t) = 9999 ∧
    (test_endpoint (HttpOutcome.exn e t)).success = false ∧
    (test_endpoint (HttpOutcome.exn e t)).status_code = 0 ∧
    (test_endpoint (HttpOutcome.exn e t)).error = some e ∧
    (test_endpoint (HttpOutcome.exn e t)).response_time_ms = t :=
  ⟨rfl, rfl, rfl, rfl, rfl, rfl, rfl, rfl⟩

/-- C4 fails as stated: the 3xx status 301 is preserved in the sample but
yields `success = false` in `SimplePerformanceTester.test_endpoint`, whose
success test is `200 <= status_code < 300`. -/
theorem C4_redirect_success_counterexample :
    300 ≤ 301 ∧ 301 < 400 ∧
    (test_endpoint (HttpOutcome.ok 301 "Moved Permanently" 5)).success = false ∧
    (test_endpoint (HttpOutcome.ok 301 "Moved Permanently" 5)).status_code = 301 :=
  ⟨by norm_num, by norm_num, rfl, rfl⟩

/-- C4 amended: every completed response keeps its actual status code (0
only on transport failure); in `LoadTester.simulate_user` every status
below 400 (2xx and 3xx) counts as a success, but in
`SimplePerformanceTester.test_endpoint` only 2xx yields `success = true`
— a 3xx yields `success = false`. -/
theorem C4_status_code_preservation (s : Nat) (c e : String) (t : ℚ) (r : LoadResults) :
    (test_endpoint (HttpOutcome.ok s c t)).status_code = s ∧
    (test_endpoint (HttpOutcome.exn e t)).status_code = 0 ∧
    (test_endpoint (HttpOutcome.ok s c t)).success = decide (200 ≤ s ∧ s < 300) ∧
    (test_endpoint (HttpOutcome.ok 204 c t)).success = true ∧
    (simulate_user_step r (HttpOutcome.ok s c t)).successes
      = (if s < 400 then r.successes + 1 else r.successes) ∧
    (simulate_user_step r (HttpOutcome.ok 302 c t)).successes = r.successes + 1 :=
  ⟨rfl, rfl, rfl, rfl, rfl, rfl⟩

/-- C6: throughput is `successful / duration` guarded by `duration > 0`,
is never negative, and is 0 exactly when the duration is non-positive or
no request succeeded; being a total function there is no
division-by-zero error. -/
theorem C6_throughput_nonneg_zero_iff (successful : Nat) (duration : ℚ) :
    0 ≤ throughput_rps successful duration ∧
    (throughput_rps successful duration = 0 ↔ duration ≤ 0 ∨ successful = 0) := by
  unfold throughput_rps
  by_cases h : 0 < duration
  · rw [if_pos h]
    refine ⟨div_nonneg (Nat.cast_nonneg _) (le_of_lt h), ?_⟩
    rw [div_eq_zero_iff]
    constructor
    · rintro (hs | hd)
      · right
        exact_mod_cast hs
      · exact absurd hd (ne_of_gt h)
    · rintro (hd | hs)
      · exact absurd h (not_lt.mpr hd)
      · left
        exact_mod_cast hs
  · rw [if_neg h]
    refine ⟨le_refl 0, ?_⟩
    simp [not_lt.mp h]

/-- A batch in which no request succeeded carries no content hash. -/
theorem successful_hashes_replicate_none (k : Nat) :
    successful_hashes (List.replicate k none) = [] := by
  induction k with
  | zero => rfl
  | succ k ih =>
      simp [successful_hashes, List.replicate_succ, List.filterMap_cons]

/-- C7: the consistency flag is true iff the set of distinct content
fingerprints across the successful samples has cardinality at most 1, and
a batch with zero successful samples (here `k` failed responses) yields
the flag true with no exception (the function is total). -/
theorem C7_consistency_flag (responses : List (Option String)) (k : Nat) :
    (content_consistent_of responses = true
      ↔ (successful_hashes responses).toFinset.card ≤ 1) ∧
    content_consistent_of (List.replicate k none) = true := by
  constructor
  · rw [content_consistent_of, content_consistent, decide_eq_true_eq,
      List.card_toFinset]
  · rw [content_consistent_of, successful_hashes_replicate_none]
    rfl

/-- C8: the cold/warm improvement is `(cold - warm) / cold * 100` for
positive cold average and 0 otherwise, `cache_likely_present` fires
exactly above the 10% threshold, an improvement above 20% collects the
full 4 + 2 evidence score, and the scenario cold = 200 ms, warm = 150 ms
gives improvement 25% with `cache_likely_present = true`. -/
theorem C8_cache_improvement (cold_avg warm_avg c2 : ℚ)
    (hpos : 0 < cold_avg) (h2 : c2 ≤ 0) :
    performance_improvement cold_avg warm_avg = (cold_avg - warm_avg) / cold_avg * 100 ∧
    performance_improvement c2 warm_avg = 0 ∧
    (cache_likely_present cold_avg warm_avg = true
      ↔ 10 < performance_improvement cold_avg warm_avg) ∧
    (20 < performance_improvement cold_avg warm_avg
      → performance_evidence_score cold_avg warm_avg = 6) ∧
    performance_improvement 200 150 = 25 ∧
    cache_likely_present 200 150 = true ∧
    performance_evidence_score 200 150 = 6 := by
  have h25 : performance_improvement 200 150 = 25 := by
    unfold performance_improvement
    norm_num
  refine ⟨?_, ?_, ?_, ?_, h25, ?_, ?_⟩
  · rw [performance_improvement, if_pos hpos]
  · rw [performance_improvement, if_neg (not_lt.mpr h2)]
  · rw [cache_likely_present, decide_eq_true_eq]
  · intro h20
    have h10 : 10 < performance_improvement cold_avg warm_avg :=
      lt_trans (by norm_num) h20
    simp [performance_evidence_score, cache_likely_present, h10, h20]
  · simp [cache_likely_present, h25]
    norm_num
  · simp [performance_evidence_score, cache_likely_present, h25]
    norm_num

/-- Witness for C8 at cold = 200 ms, warm = 150 ms (and 0 for the
non-positive cold average). -/
theorem C8_cache_improvement_witness :
    performance_improvement 200 150 = (200 - 150) / 200 * 100 ∧
    performance_improvement 0 150 = 0 ∧
    (cache_likely_present 200 150 = true ↔ 10 < performance_improvement 200 150) ∧
    (20 < performance_improvement 200 150 → performance_evidence_score 200 150 = 6) ∧
    performance_improvement 200 150 = 25 ∧
    cache_likely_present 200 150 = true ∧
    performance_evidence_score 200 150 = 6 :=
  C8_cache_improvement 200 150 0 (by norm_num) (le_refl 0)

/-- Classifying one response time raises the two counters by one in
total. -/
theorem count_rt_sum (a : ConcCounts) (rt : ℚ) :
    (count_rt a rt).successful_requests + (count_rt a rt).failed_requests
      = a.successful_requests + a.failed_requests + 1 := by
  unfold count_rt
  split <;> simp <;> omega

/-- Counting a user's response-time list raises the two counters by its
length in total. -/
theorem count_user_result_sum (rts : List ℚ) :
    ∀ acc : ConcCounts,
      (count_user_result acc rts).successful_requests
        + (count_user_result acc rts).failed_requests
      = acc.successful_requests + acc.failed_requests + rts.length := by
  induction rts with
  | nil =>
      intro acc
      simp [count_user_result]
  | cons rt rts ih =>
      intro acc
      have hstep : count_user_result acc (rt :: rts)
          = count_user_result (count_rt acc rt) rts := rfl
      rw [hstep]
      have h1 := count_rt_sum acc rt
      have h2 := ih (count_rt acc rt)
      simp only [List.length_cons]
      omega

/-- Folding the gather results from any starting counters adds exactly
`requests_per_user` per actor, whether it returned a list or an
exception. -/
theorem orchestrate_fold_sum (requests_per_user : Nat) :
    ∀ results : List (Except String (List ℚ)),
      (∀ l, Except.ok l ∈ results → l.length = requests_per_user) →
      ∀ acc : ConcCounts,
        (results.foldl (orchestrate_step requests_per_user) acc).successful_requests
          + (results.foldl (orchestrate_step requests_per_user) acc).failed_requests
        = acc.successful_requests + acc.failed_requests
          + results.length * requests_per_user := by
  intro results
  induction results with
  | nil =>
      intro _ acc
      simp
  | cons r rs ih =>
      intro hlen acc
      have hlen' : ∀ l, Except.ok l ∈ rs → l.length = requests_per_user :=
        fun l hl => hlen l (List.mem_cons_of_mem _ hl)
      have hfold : (r :: rs).foldl (orchestrate_step requests_per_user) acc
          = rs.foldl (orchestrate_step requests_per_user)
              (orchestrate_step requests_per_user acc r) := rfl
      have hstep : (orchestrate_step requests_per_user acc r).successful_requests
          + (orchestrate_step requests_per_user acc r).failed_requests
          = acc.successful_requests + acc.failed_requests + requests_per_user := by
        cases r with
        | error e =>
            simp [orchestrate_step]
            omega
        | ok rts =>
            have hr : rts.length = requests_per_user :=
              hlen rts (List.mem_cons_self _ _)
            have := count_user_result_sum rts acc
            simp only [orchestrate_step]
            omega
      have h2 := ih hlen' (orchestrate_step requests_per_user acc r)
      have hmul : (rs.length + 1) * requests_per_user
          = rs.length * requests_per_user + requests_per_user := by ring
      rw [hfold]
      simp only [List.length_cons]
      omega

/-- C5: with each completed actor contributing exactly
`requests_per_user` samples and each crashed actor counted as
`requests_per_user` failures, the orchestrator's counts partition the
total, the error rate is `failed / total * 100` (0 for an empty batch),
and error rate plus success rate is 100%. -/
theorem C5_error_rate_partition (requests_per_user total : Nat)
    (results : List (Except String (List ℚ)))
    (hlen : ∀ l, Except.ok l ∈ results → l.length = requests_per_user)
    (htot : total = results.length * requests_per_user)
    (hpos : 0 < total) :
    (process_user_results requests_per_user results).successful_requests
        + (process_user_results requests_per_user results).failed_requests = total ∧
    error_rate_percent
        (process_user_results requests_per_user results).failed_requests total
      = ((process_user_results requests_per_user results).failed_requests : ℚ)
          / (total : ℚ) * 100 ∧
    error_rate_percent
        (process_user_results requests_per_user results).failed_requests total
      + ((process_user_results requests_per_user results).successful_requests : ℚ)
          / (total : ℚ) * 100 = 100 ∧
    error_rate_percent
        (process_user_results requests_per_user results).failed_requests 0 = 0 := by
  have hsum : (process_user_results requests_per_user results).successful_requests
      + (process_user_results requests_per_user results).failed_requests = total := by
    have := orchestrate_fold_sum requests_per_user results hlen
      { successful_requests := 0, failed_requests := 0 }
    simp only [process_user_results]
    simp at this
    omega
  refine ⟨hsum, ?_, ?_, ?_⟩
  · rw [error_rate_percent, if_pos hpos]
  · rw [error_rate_percent, if_pos hpos]
    have htq : ((total : ℚ)) ≠ 0 := by
      exact_mod_cast Nat.pos_iff_ne_zero.mp hpos
    have hcast : ((process_user_results requests_per_user results).failed_requests : ℚ)
        + ((process_user_results requests_per_user results).successful_requests : ℚ)
        = (total : ℚ) := by
      exact_mod_cast by omega
    field_simp
    linarith
  · simp [error_rate_percent]

/-- Witness for C5: two actors, two requests each; the first completed
with one success and one sentinel failure, the second raised — so
successful = 1, failed = 3, total = 4, error rate 75% and success rate
25%. -/
theorem C5_error_rate_partition_witness :
    (process_user_results 2 [Except.ok [(1 : ℚ), 9999], Except.error "boom"]).successful_requests
        + (process_user_results 2 [Except.ok [(1 : ℚ), 9999], Except.error "boom"]).failed_requests = 4 ∧
    error_rate_percent
        (process_user_results 2 [Except.ok [(1 : ℚ), 9999], Except.error "boom"]).failed_requests 4
      = ((process_user_results 2 [Except.ok [(1 : ℚ), 9999], Except.error "boom"]).failed_requests : ℚ)
          / (4 : ℚ) * 100 ∧
    error_rate_percent
        (process_user_results 2 [Except.ok [(1 : ℚ), 9999], Except.error "boom"]).failed_requests 4
      + ((process_user_results 2 [Except.ok [(1 : ℚ), 9999], Except.error "boom"]).successful_requests : ℚ)
          / (4 : ℚ) * 100 = 100 ∧
    error_rate_percent
        (process_user_results 2 [Except.ok [(1 : ℚ), 9999], Except.error "boom"]).failed_requests 0 = 0 :=
  C5_error_rate_partition 2 4 [Except.ok [(1 : ℚ), 9999], Except.error "boom"]
    (by
      intro l hl
      simp only [List.mem_cons, List.mem_singleton] at hl
      rcases hl with h | h
      · injection h with h
        subst h
        rfl
      · exact absurd h (by simp))
    (by simp) (by norm_num)

/-- C3 fails as stated: in
`DatabasePerformanceTester.test_concurrent_queries` the p95 list is
`all_query_times` with no success filter, so with one successful query
(1 ms) and one failed query (sentinel 9999) the p95 IS the failed
sample's sentinel latency. -/
theorem C3_sentinel_in_percentile_counterexample :
    db_p95_query_time [(1 : ℚ), 9999] = 9999 ∧
    db_successful_queries [(1 : ℚ), 9999] = 1 := by
  constructor
  · have hsort : List.insertionSort (· ≤ ·) [(1 : ℚ), 9999] = [1, 9999] := by
      norm_num [List.insertionSort, List.orderedInsert]
    have hidx : percentile_index (95 / 100) 2 = 1 := by
      have h1 : ((95 : ℚ) / 100) * 2 = 19 / 10 := by norm_num
      have h2 : ⌊(19 : ℚ) / 10⌋ = 1 := by
        rw [Int.floor_eq_iff]
        norm_num
      unfold percentile_index
      rw [show ((2 : Nat) : ℚ) = 2 by norm_num, h1, h2]
      rfl
    rw [db_p95_query_time, percentile, hsort]
    simp [hidx]
  · norm_num [db_successful_queries, List.filter]

/-- C3 amended: `test_concurrent_users` sorts only latencies below the
9999 sentinel (success-only percentiles), but `simulate_user` in the load
test appends the latency of a status-failed (here 500) request to the
percentile population, and the database test's p95 ranges over all query
times, sentinel failures included. -/
theorem C3_percentile_population (all_response_times : List ℚ)
    (r : LoadResults) (c : String) (t : ℚ) :
    (suite_sorted_times all_response_times).all (fun rt => decide (rt < 9999)) = true ∧
    (simulate_user_step r (HttpOutcome.ok 500 c t)).response_times
      = r.response_times ++ [t] ∧
    (simulate_user_step r (HttpOutcome.ok 500 c t)).failures = r.failures + 1 ∧
    db_p95_query_time [(5 : ℚ), 9999, 9999] = 9999 ∧
    db_successful_queries [(5 : ℚ), 9999, 9999] = 1 := by
  refine ⟨?_, rfl, ?_, ?_, ?_⟩
  · rw [List.all_eq_true]
    intro x hx
    rw [suite_sorted_times, List.mem_insertionSort] at hx
    exact (List.mem_filter.mp hx).2
  · simp [simulate_user_step]
  · have hsort : List.insertionSort (· ≤ ·) [(5 : ℚ), 9999, 9999] = [5, 9999, 9999] := by
      norm_num [List.insertionSort, List.orderedInsert]
    have hidx : percentile_index (95 / 100) 3 = 2 := by
      have h1 : ((95 : ℚ) / 100) * 3 = 57 / 20 := by norm_num
      have h2 : ⌊(57 : ℚ) / 20⌋ = 2 := by
        rw [Int.floor_eq_iff]
        norm_num
      unfold percentile_index
      rw [show ((3 : Nat) : ℚ) = 3 by norm_num, h1, h2]
      rfl
    rw [db_p95_query_time, percentile, hsort]
    simp [hidx]
  · norm_num [db_successful_queries, List.filter]

/-- C9 fails as stated: an error rate of 3% is strictly above 0%, yet
`generate_performance_report` emits no recommendation at all for it (its
threshold is 5%, and its category is "Scalability", not
"Reliability"). -/
theorem C9_error_rate_rec_counterexample :
    (0 : ℚ) < 3 ∧ concurrency_recommendations 3 100 = [] := by
  constructor
  · norm_num
  · rw [concurrency_recommendations, if_neg (by norm_num), if_neg (by norm_num)]
    rfl

/-- C9 amended: `SimplePerformanceTester.analyze_results` emits a HIGH
"Reliability" recommendation exactly when some request failed (error
rate above 0%), while `generate_performance_report` emits a HIGH
"Scalability" recommendation exactly when the error rate exceeds 5% and
never a "Reliability" one. -/
theorem C9_reliability_rule (failed_requests : Nat)
    (rps error_rate throughput : ℚ) :
    ((Recommendation.mk "Reliability" Priority.HIGH)
        ∈ load_recommendations rps failed_requests
      ↔ 0 < failed_requests) ∧
    ((Recommendation.mk "Scalability" Priority.HIGH)
        ∈ concurrency_recommendations error_rate throughput
      ↔ 5 < error_rate) ∧
    ¬ (Recommendation.mk "Reliability" Priority.HIGH)
        ∈ concurrency_recommendations error_rate throughput := by
  unfold load_recommendations concurrency_recommendations
  refine ⟨?_, ?_, ?_⟩
  · by_cases h1 : rps < 10 <;> by_cases h2 : 0 < failed_requests <;>
      simp [h1, h2, Recommendation.mk.injEq]
  · by_cases h1 : 5 < error_rate <;> by_cases h2 : throughput < 50 <;>
      simp [h1, h2, Recommendation.mk.injEq]
  · by_cases h1 : 5 < error_rate <;> by_cases h2 : throughput < 50 <;>
      simp [h1, h2, Recommendation.mk.injEq]

end HEPerf
